import Mathlib

/-!
Verification of the reentrant getopt engine
(src/lib/posix/c_lib_ext/zephyr_getopt.c and getopt_r.c).

C strings are modelled as `List Char`; reading past the end of a list (or at
an embedded NUL) yields the NUL character, matching C's NUL-terminated
strings.  The `int` fields (`optind`, `optopt`, return codes, `struct option`
values) are modelled as `Int`; the two `uint16_t` halves of the
`union opterr_state` slot (`optind_prev`, `nextchar_idx`) are modelled as the
decoded pair of naturals, with every store reduced modulo 2^16 exactly as the
C casts do.
-/

/-- The NUL character terminating C strings. -/
def nul : Char := Char.ofNat 0

/-- A character as the C `int` it is promoted to. -/
def cInt (c : Char) : Int := (c.toNat : Int)

/-- `s[k]` on a NUL-terminated C string: past the end (or at list end) reads NUL. -/
def cidx (s : List Char) (k : Nat) : Char := s.getD k nul

/-- C `strlen`: the index of the first NUL (list end counts as NUL). -/
def strlenC : List Char → Nat
  | [] => 0
  | c :: cs => if c = nul then 0 else strlenC cs + 1

/-- C `strncmp(a, b, n) == 0`: the first `n` characters agree, where the
comparison stops early at a NUL. -/
def strncmp_eq : List Char → List Char → Nat → Bool
  | _, _, 0 => true
  | a, b, n + 1 =>
    if cidx a 0 ≠ cidx b 0 then false
    else if cidx a 0 = nul then true
    else strncmp_eq a.tail b.tail n

/-- The C cast `(uint16_t)x` of an `int`. -/
def u16 (x : Int) : Nat := (x % 65536).toNat

/-- The clamping of `nextchar_idx` performed before the short-option scan:
`if (st->nextchar_idx < 1 || st->nextchar_idx >= strlen(arg)) st->nextchar_idx = 1`. -/
def clampNC (nc len : Nat) : Nat := if nc < 1 ∨ len ≤ nc then 1 else nc

/-- `argv[i]` (call sites only use indices in `[0, argc)`). -/
def argvAt (argv : List (List Char)) (i : Int) : List Char := argv.getD i.toNat []

/-- `getopt_char_to_mask_index`: maps `[a-z]` to 0..25, `[A-Z]` to 26..51,
`[0-9]` to 52..61, and anything else to "not an option symbol" (C's -1). -/
def getopt_char_to_mask_index (c : Int) : Option Nat :=
  if 97 ≤ c ∧ c ≤ 122 then some (c - 97).toNat
  else if 65 ≤ c ∧ c ≤ 90 then some ((c - 65).toNat + 26)
  else if 48 ≤ c ∧ c ≤ 57 then some ((c - 48).toNat + 52)
  else none

/-- The compiled optstring: the `registered` and `requires_arg` 64-bit masks
plus the leading-colon flag of `getopt_parse_optstring`. -/
structure OptTable where
  omask : Nat
  amask : Nat
  colon : Bool
deriving DecidableEq, Repr

/-- The scanning loop of `getopt_parse_optstring`.  `first` tracks the
`last == -1` test (true exactly on the first iteration); a character already
registered is skipped without consuming a following colon. -/
def getopt_parse_optstring_aux : List Char → Bool → Nat → Nat → Nat × Nat
  | [], _, om, am => (om, am)
  | [c], first, om, am =>
    if c = nul then (om, am)
    else if first ∧ c = ':' then (om, am)
    else
      match getopt_char_to_mask_index (cInt c) with
      | none => (om, am)
      | some idx =>
        if om.testBit idx then (om, am)
        else (om ||| (1 <<< idx), am)
  | c :: c2 :: rest, first, om, am =>
    if c = nul then (om, am)
    else if first ∧ c = ':' then getopt_parse_optstring_aux (c2 :: rest) false om am
    else
      match getopt_char_to_mask_index (cInt c) with
      | none => getopt_parse_optstring_aux (c2 :: rest) false om am
      | some idx =>
        if om.testBit idx then getopt_parse_optstring_aux (c2 :: rest) false om am
        else if c2 = ':' then
          getopt_parse_optstring_aux rest false (om ||| (1 <<< idx)) (am ||| (1 <<< idx))
        else getopt_parse_optstring_aux (c2 :: rest) false (om ||| (1 <<< idx)) am

/-- `getopt_parse_optstring`: compile an optstring into the two masks and the
leading-colon flag.  (The `(*o == '+') && (*o == '-')` guard of the C source
is an always-false conjunction and is dropped as dead code.) -/
def getopt_parse_optstring (o : List Char) : OptTable :=
  let p := getopt_parse_optstring_aux o true 0 0
  ⟨p.1, p.2, cidx o 0 = ':'⟩

/-- A `struct option` table entry.  `flag` records whether the `flag` pointer
is non-NULL (the engine never stores the address itself); the terminating
all-zero sentinel entry is the end of the list. -/
structure LongOption where
  name : List Char
  has_arg : Int
  flag : Bool
  val : Int
deriving DecidableEq, Repr

/-- The semantic classification of one call's outcome (which branch of the
source produced the return code). -/
inductive RKind
  | endOfOptions
  | notAnOption
  | matched
  | missingArg
  | unknownOpt
  | noMatch
deriving DecidableEq, Repr

/-- The outcome of one engine step: the return code, its semantic kind, and
the writes it performs on the caller-visible cells (`none` = the cell is left
untouched).  `wOptarg = some none` models the write `*optarg = NULL`. -/
structure GRes where
  ret : Int
  kind : RKind
  wOptarg : Option (Option (List Char))
  wOptopt : Option Int
  wOptind : Option Int
  wNc : Option Nat
  wFlag : Option Int
  wLidx : Option Nat
deriving DecidableEq, Repr

/-- The reentrant state quadruple: `optind`, the decoded `opterr` slot
(`prev` = `optind_prev`, `nc` = `nextchar_idx`, both uint16), `optopt`, and
`optarg` (`none` = NULL). -/
@[ext]
structure GState where
  optind : Int
  prev : Nat
  nc : Nat
  optopt : Int
  optarg : Option (List Char)
deriving DecidableEq, Repr

/-- The per-session inputs of `zephyr_getopt`.  `argc = argv.length`;
`longopts = none` models the short-option-only configuration (`getopt_r`). -/
structure GArgs where
  argv : List (List Char)
  optstring : List Char
  longopts : Option (List LongOption)
  longonly : Bool
deriving DecidableEq, Repr

/-- The descriptor search of `getopt_match_longopt`'s loop: the first entry
whose name passes `strncmp(arg, opt->name, strlen(opt->name)) == 0`, together
with its index; reaching the sentinel yields `none`. -/
def getopt_longopt_search : List Char → List LongOption → Nat → Option (Nat × LongOption)
  | _, [], _ => none
  | arg, opt :: rest, i =>
    if strncmp_eq arg opt.name (strlenC opt.name) then some (i, opt)
    else getopt_longopt_search arg rest (i + 1)

/-- The `return colon_at_start ? ':' : '?'` error result of the long matcher. -/
def getopt_longopt_err (colon : Bool) : GRes :=
  ⟨if colon then 58 else 63, if colon then .missingArg else .unknownOpt,
   none, none, none, none, none, none⟩

/-- The `switch (opt->has_arg)` body of `getopt_match_longopt` for the matched
descriptor `opt` at table index `k`; `arg` is the element with its leading
dashes stripped. -/
def getopt_longopt_act (argc : Int) (argv : List (List Char)) (idx : Int) (arg : List Char)
    (k : Nat) (opt : LongOption) (tbl : OptTable) (longonly : Bool) : GRes :=
  let len := strlenC opt.name
  let sidx := getopt_char_to_mask_index opt.val
  let rv : Int := if opt.flag then 0 else opt.val
  let fw : Option Int := if opt.flag then some opt.val else none
  if opt.has_arg = 0 then
    if (match sidx with | none => false | some si => tbl.amask.testBit si) then
      getopt_longopt_err tbl.colon
    else ⟨rv, .matched, none, some rv, some (idx + 1), none, fw, some k⟩
  else if opt.has_arg = 1 then
    if (match sidx with | none => false | some si => ¬ tbl.amask.testBit si) then
      getopt_longopt_err tbl.colon
    else if cidx arg len = '=' then
      if cidx arg len = nul then getopt_longopt_err tbl.colon
      else ⟨rv, .matched, some (some (arg.drop (len + 1))), some rv, some (idx + 1),
            none, fw, some k⟩
    else if argc ≤ idx + 1 then getopt_longopt_err tbl.colon
    else ⟨rv, .matched, some (some (argvAt argv (idx + 1))), some rv, some (idx + 2),
          none, fw, some k⟩
  else if opt.has_arg = 2 then
    if cidx arg len = '=' ∧ cidx arg len = nul then getopt_longopt_err tbl.colon
    else
      let wa : Option (Option (List Char)) :=
        if cidx arg len = '=' then some (some (arg.drop (len + 1))) else none
      if (match sidx with | none => false | some si => ¬ tbl.amask.testBit si) then
        { getopt_longopt_err tbl.colon with wOptarg := wa }
      else ⟨rv, .matched, wa, some rv, some (idx + 1), none, fw, some k⟩
  else
    if longonly then ⟨-1, .noMatch, none, none, none, none, none, none⟩
    else ⟨63, .unknownOpt, none, none, none, none, none, none⟩

/-- `getopt_match_longopt`: strip the leading dashes (bailing out to short
scanning on a single dash outside longonly mode), search the table, and act
on the first match; return code -1 means "no long option consumed". -/
def getopt_match_longopt (argc : Int) (argv : List (List Char)) (idx : Int)
    (tbl : OptTable) (longonly : Bool) (lopts : List LongOption) : GRes :=
  let arg0 := argvAt argv idx
  if cidx arg0 0 = '-' ∧ cidx arg0 1 ≠ '-' ∧ ¬ longonly then
    ⟨-1, .noMatch, none, none, none, none, none, none⟩
  else
    let arg := if cidx arg0 0 = '-' then
                 (if cidx arg0 1 = '-' then arg0.drop 2 else arg0.drop 1)
               else arg0
    match getopt_longopt_search arg lopts 0 with
    | none => ⟨-1, .noMatch, none, none, none, none, none, none⟩
    | some (k, opt) => getopt_longopt_act argc argv idx arg k opt tbl longonly

/-- One execution of the short-option inner-loop body at character position
`j` of element `arg` (= `argv[i]`); `j` is the already-clamped cursor. -/
def getopt_short_scan (argc : Int) (argv : List (List Char)) (tbl : OptTable)
    (i : Int) (arg : List Char) (j : Nat) : GRes :=
  let c := cInt (cidx arg j)
  match getopt_char_to_mask_index c with
  | none => ⟨63, .unknownOpt, none, some c, some i, some j, none, none⟩
  | some ci =>
    if ¬ tbl.omask.testBit ci then
      ⟨63, .unknownOpt, none, some c, some i, some j, none, none⟩
    else if tbl.amask.testBit ci then
      if cidx arg (j + 1) ≠ nul then
        ⟨c, .matched, some (some (arg.drop (j + 1))), some c, some (i + 1), some j, none, none⟩
      else if i + 1 < argc then
        ⟨c, .matched, some (some (argvAt argv (i + 1))), some c, some (i + 2), some j, none, none⟩
      else
        ⟨if tbl.colon then 58 else 63, .missingArg, none, some c, some i, some j, none, none⟩
    else
      if cidx arg (j + 1) = nul then
        ⟨c, .matched, some none, some c, some (i + 1), some 0, none, none⟩
      else
        ⟨c, .matched, some none, some c, some i, some ((j + 1) % 65536), none, none⟩

/-- The entry protocol of `zephyr_getopt`: reset to a fresh session when
`optind < 1`, and reinitialize the character cursor when the caller changed
`optind` behind the engine's back. -/
def getopt_normalize (s : GState) : GState :=
  let s1 := if s.optind < 1 then ⟨1, 1, 0, s.optopt, s.optarg⟩ else s
  if s1.optind ≠ (s1.prev : Int) then ⟨s1.optind, u16 s1.optind, 1, s1.optopt, s1.optarg⟩
  else s1

/-- Apply one step's writes to the state and perform the `done:` label's
`st->optind_prev = (uint16_t)*optind` synchronization. -/
def getopt_apply (r : GRes) (s : GState) : GState :=
  let i := r.wOptind.getD s.optind
  ⟨i, u16 i, r.wNc.getD s.nc, r.wOptopt.getD s.optopt, r.wOptarg.getD s.optarg⟩

/-- The body of `zephyr_getopt` after the entry protocol, parametrized by the
already-compiled optstring table.  The C scanning loop executes its body
exactly once per call: every element either breaks out or ends in
`goto done` (the clamped cursor always points at a non-NUL character of an
option element), so the loop is translated to the single classification of
`argv[optind]`. -/
def getopt_classify (A : GArgs) (tbl : OptTable) (s : GState) : GRes :=
  let argc : Int := A.argv.length
  let i := s.optind
  let arg := argvAt A.argv i
  if cidx arg 0 ≠ '-' ∨ cidx arg 1 = nul then
    ⟨-1, .notAnOption, none, none, none, none, none, none⟩
  else if cidx arg 1 = '-' ∧ cidx arg 2 = nul then
    ⟨-1, .endOfOptions, none, none, some (i + 1), none, none, none⟩
  else
    match A.longopts with
    | none => getopt_short_scan argc A.argv tbl i arg (clampNC s.nc (strlenC arg))
    | some lopts =>
      let m := getopt_match_longopt argc A.argv i tbl A.longonly lopts
      if m.ret = 0 then { m with wOptopt := some 0 }
      else if m.ret = 63 ∨ m.ret = 58 then m
      else if m.ret = -1 then
        getopt_short_scan argc A.argv tbl i arg (clampNC s.nc (strlenC arg))
      else { m with wOptopt := some m.ret }

/-- The bounds check followed by the classification and the write-back. -/
def getopt_core_tbl (A : GArgs) (tbl : OptTable) (s : GState) : GRes × GState :=
  if (A.argv.length : Int) ≤ s.optind then
    (⟨-1, .endOfOptions, none, none, none, none, none, none⟩, s)
  else
    (getopt_classify A tbl s, getopt_apply (getopt_classify A tbl s) s)

/-- The body of `zephyr_getopt` after the entry protocol: the optstring is
recompiled on every call. -/
def getopt_core (A : GArgs) (s : GState) : GRes × GState :=
  getopt_core_tbl A (getopt_parse_optstring A.optstring) s

/-- One call of `zephyr_getopt` on the explicit state quadruple. -/
def zephyr_getopt (A : GArgs) (s : GState) : GRes × GState :=
  getopt_core A (getopt_normalize s)

/-- The state quadruple a caller builds before the first call: all fields
zero/default except `optind = 1`. -/
def freshGState : GState := ⟨1, 0, 0, 0, none⟩

/-- The observable outcome sequence of `n` successive calls: each call's full
result record together with the `optind` it leaves behind. -/
def getopt_trace (A : GArgs) : Nat → GState → List (GRes × Int)
  | 0, _ => []
  | n + 1, s =>
    let p := zephyr_getopt A s
    (p.1, p.2.optind) :: getopt_trace A n p.2

/-! ### Concrete inputs used by individual claims -/

/-- The program name `argv[0]`. -/
def argCmd : List Char := ['c', 'm', 'd']

/-- C1 input: element `--filename` against the single descriptor
`{"file", no_argument, NULL, 'f'}`. -/
def C1args : GArgs :=
  ⟨[argCmd, ['-', '-', 'f', 'i', 'l', 'e', 'n', 'a', 'm', 'e']], [],
   some [⟨['f', 'i', 'l', 'e'], 0, false, 102⟩], false⟩

/-- C2 input: element `--file=` (empty text after `=`) against
`{"file", required_argument, NULL, 'f'}` with optstring `"f:"`. -/
def C2args : GArgs :=
  ⟨[argCmd, ['-', '-', 'f', 'i', 'l', 'e', '=']], ['f', ':'],
   some [⟨['f', 'i', 'l', 'e'], 1, false, 102⟩], false⟩

/-- C3 input family: `--file=data.txt` against
`{"file", required_argument, NULL, 'f'}`, optstring a parameter. -/
def C3args (o : List Char) : GArgs :=
  ⟨[argCmd, ['-', '-', 'f', 'i', 'l', 'e', '=', 'd', 'a', 't', 'a', '.', 't', 'x', 't']], o,
   some [⟨['f', 'i', 'l', 'e'], 1, false, 102⟩], false⟩

/-- C4 input: `argv = ["cmd", "-ab"]`, optstring `"ab"`, no long table. -/
def C4args : GArgs := ⟨[argCmd, ['-', 'a', 'b']], ['a', 'b'], none, false⟩

/-- C5 counterexample input: element `--xyz` against the single descriptor
`{"verbose", no_argument, NULL, 'v'}`, `longonly` inactive. -/
def C5args : GArgs :=
  ⟨[argCmd, ['-', '-', 'x', 'y', 'z']], ['v'],
   some [⟨['v', 'e', 'r', 'b', 'o', 's', 'e'], 0, false, 118⟩], false⟩

/-- C6 witness input: `argv = ["cmd", "-f"]`, optstring `":f:"`. -/
def C6args : GArgs := ⟨[argCmd, ['-', 'f']], [':', 'f', ':'], none, false⟩

/-- C7 input family: `argv = ["cmd", "-abc"]`, optstring a parameter. -/
def C7args (o : List Char) : GArgs := ⟨[argCmd, ['-', 'a', 'b', 'c']], o, none, false⟩

/-- C8 witness input: `argv = ["cmd", "-a", "-b", "arg", "file"]`,
optstring `"ab:c"`. -/
def C8args : GArgs :=
  ⟨[argCmd, ['-', 'a'], ['-', 'b'], ['a', 'r', 'g'], ['f', 'i', 'l', 'e']],
   ['a', 'b', ':', 'c'], none, false⟩

/-- C9 witness input: `argv = ["cmd", "-x"]`, optstring `"a"` (so `-x` is an
unknown option). -/
def C9args : GArgs := ⟨[argCmd, ['-', 'x']], ['a'], none, false⟩

/-- C10 input: `argv = ["cmd"]` with no options at all. -/
def C10args : GArgs := ⟨[argCmd], [], none, false⟩

/-! ### C1 -/

/-- C1, counterexample: with descriptor name `file` and element `--filename`
(the stripped text merely begins with the descriptor name, followed by other
characters), the claim predicts no match against that descriptor; the code
nevertheless reports a match, returning the descriptor's value `'f'` with
`longindex` 0 and advancing `next_index` to 2. -/
theorem C1_name_extension_matches :
    (zephyr_getopt C1args freshGState).1.kind = RKind.matched ∧
    (zephyr_getopt C1args freshGState).1.ret = 102 ∧
    (zephyr_getopt C1args freshGState).1.wLidx = some 0 ∧
    (zephyr_getopt C1args freshGState).2.optind = 2 := by
  decide

/-! ### C2 -/

/-- C2, evaluation at the failing input: for `--file=` with a
`required_argument` descriptor (optstring `"f:"`), the code returns a match
with return code `'f'` and an empty-string argument instead of the
`MissingArgument` (`':'`/`'?'`) outcome the spec requires; the guard
`if (arg[opt_name_len] == '\0')` sits inside the `arg[opt_name_len] == '='`
branch and is unsatisfiable, so the intended empty-argument rejection is
dead code. -/
theorem C2_empty_inline_arg_is_matched :
    (zephyr_getopt C2args freshGState).1.kind = RKind.matched ∧
    (zephyr_getopt C2args freshGState).1.ret = 102 ∧
    (zephyr_getopt C2args freshGState).2.optarg = some [] ∧
    (zephyr_getopt C2args freshGState).1.ret ≠ 58 ∧
    (zephyr_getopt C2args freshGState).1.ret ≠ 63 := by
  decide

/-! ### C3 -/

/-- C3, counterexample: with the empty optstring (an admissible instance of
the claim's "any optstring"), the same call returns `'?'` (63), not
`Matched('f', "data.txt")`: the matcher's cross-check rejects a
`required_argument` long option whose `val` is an alphanumeric character not
registered as argument-taking in the optstring. -/
theorem C3_empty_optstring_rejected :
    (zephyr_getopt (C3args []) freshGState).1.ret = 63 ∧
    (zephyr_getopt (C3args []) freshGState).1.ret ≠ 102 ∧
    (zephyr_getopt (C3args []) freshGState).2.optarg = none := by
  decide

/-! ### C4 -/

/-- C4, counterexample: after one call on `argv = ["cmd", "-ab"]`
(optstring `"ab"`) from a fresh state, the engine is mid-cluster with
`next_index = 1`; setting `next_index` to 1 (the value the claim prescribes)
leaves the quadruple unchanged, and the next call returns `'b'` (98), not
the `'a'` (97) that the first call of a fresh session returns, so the
character cursor was not reinitialized. -/
theorem C4_reset_to_one_keeps_cursor :
    (zephyr_getopt C4args freshGState).2.optind = 1 ∧
    (zephyr_getopt C4args freshGState).1.ret = 97 ∧
    (zephyr_getopt C4args
      { (zephyr_getopt C4args freshGState).2 with optind := 1 }).1.ret = 98 ∧
    (98 : Int) ≠ 97 := by
  decide

/-! ### C5 -/

/-- C5, counterexample: with a long table supplied, `longonly` inactive and
element `--xyz` matching no descriptor, the call does return `'?'` (63), but
`last_char` (`optopt`) is set to `'-'` (45) by the short-option scan the
element falls back to — not to the `'?'` sentinel (63) the claim states. -/
theorem C5_nomatch_optopt_is_dash :
    (zephyr_getopt C5args freshGState).1.ret = 63 ∧
    (zephyr_getopt C5args freshGState).2.optopt = 45 ∧
    (zephyr_getopt C5args freshGState).2.optopt ≠ 63 := by
  decide

/-! ### C10 -/

/-- C10, counterexample: entering with `next_index = 65537` (≥ 1, as the
claim allows) and `argc = 1`, the entry synchronization stores
`(uint16_t)65537 = 1` into `prev_next_index` and the call returns
end-of-options with `next_index` still 65537: the decoded `prev_next_index`
(1) differs from the final `next_index` (65537). -/
theorem C10_truncation_breaks_prev_sync :
    (1 : Int) ≤ 65537 ∧
    (zephyr_getopt C10args ⟨65537, 5, 0, 0, none⟩).2.optind = 65537 ∧
    (zephyr_getopt C10args ⟨65537, 5, 0, 0, none⟩).2.prev = 1 ∧
    ((zephyr_getopt C10args ⟨65537, 5, 0, 0, none⟩).2.prev : Int) ≠
      (zephyr_getopt C10args ⟨65537, 5, 0, 0, none⟩).2.optind := by
  decide

/-! ### Basic lemmas about the state protocol -/

theorem clampNC_of_le_one {nc : Nat} (L : Nat) (h : nc ≤ 1) : clampNC nc L = 1 := by
  unfold clampNC
  split <;> omega

theorem clampNC_idem (nc L : Nat) : clampNC (clampNC nc L) L = clampNC nc L := by
  unfold clampNC
  split_ifs <;> omega

theorem u16_of_lt {x : Int} (h0 : 0 ≤ x) (h1 : x < 65536) : (u16 x : Int) = x := by
  unfold u16
  omega

theorem getopt_normalize_reset (s : GState) (h : s.optind < 1) :
    getopt_normalize s = ⟨1, 1, 0, s.optopt, s.optarg⟩ := by
  unfold getopt_normalize
  dsimp only
  rw [if_pos h]
  simp

theorem getopt_normalize_sync (s : GState) (h1 : ¬ s.optind < 1)
    (h2 : s.optind ≠ (s.prev : Int)) :
    getopt_normalize s = ⟨s.optind, u16 s.optind, 1, s.optopt, s.optarg⟩ := by
  unfold getopt_normalize
  dsimp only
  rw [if_neg h1, if_pos h2]

theorem getopt_normalize_id (s : GState) (h1 : ¬ s.optind < 1)
    (h2 : ¬ s.optind ≠ (s.prev : Int)) :
    getopt_normalize s = s := by
  unfold getopt_normalize
  dsimp only
  rw [if_neg h1, if_neg h2]

theorem getopt_normalize_optind_pos (s : GState) : 1 ≤ (getopt_normalize s).optind := by
  by_cases h1 : s.optind < 1
  · rw [getopt_normalize_reset s h1]
  · by_cases h2 : s.optind ≠ (s.prev : Int)
    · rw [getopt_normalize_sync s h1 h2]
      dsimp only
      omega
    · rw [getopt_normalize_id s h1 h2]
      omega

theorem getopt_normalize_optind_ge (s : GState) (h : 1 ≤ s.optind) :
    (getopt_normalize s).optind = s.optind := by
  by_cases h2 : s.optind ≠ (s.prev : Int)
  · rw [getopt_normalize_sync s (by omega) h2]
  · rw [getopt_normalize_id s (by omega) h2]

theorem getopt_normalize_prev (s : GState) (h : s.prev < 65536) :
    (getopt_normalize s).prev = u16 (getopt_normalize s).optind := by
  by_cases h1 : s.optind < 1
  · rw [getopt_normalize_reset s h1]
    dsimp only
    unfold u16
    decide
  · by_cases h2 : s.optind ≠ (s.prev : Int)
    · rw [getopt_normalize_sync s h1 h2]
    · rw [getopt_normalize_id s h1 h2]
      simp only [ne_eq, not_not] at h2
      unfold u16
      omega

theorem getopt_normalize_prev_lt (s : GState) (h : s.prev < 65536) :
    (getopt_normalize s).prev < 65536 := by
  by_cases h1 : s.optind < 1
  · rw [getopt_normalize_reset s h1]
    dsimp only
    omega
  · by_cases h2 : s.optind ≠ (s.prev : Int)
    · rw [getopt_normalize_sync s h1 h2]
      dsimp only
      unfold u16
      omega
    · rw [getopt_normalize_id s h1 h2]
      exact h

theorem getopt_normalize_nc_big (s : GState) (h : s.prev < 65536)
    (hb : 65536 ≤ (getopt_normalize s).optind) : (getopt_normalize s).nc = 1 := by
  by_cases h1 : s.optind < 1
  · rw [getopt_normalize_reset s h1] at hb
    dsimp only at hb
    omega
  · by_cases h2 : s.optind ≠ (s.prev : Int)
    · rw [getopt_normalize_sync s h1 h2]
    · rw [getopt_normalize_id s h1 h2] at hb ⊢
      simp only [ne_eq, not_not] at h2
      omega

theorem getopt_normalize_eq_self (s : GState) (h1 : 1 ≤ s.optind)
    (h2 : s.prev = u16 s.optind) (h3 : 65536 ≤ s.optind → s.nc = 1) :
    getopt_normalize s = s := by
  by_cases hc : s.optind ≠ (s.prev : Int)
  · rw [getopt_normalize_sync s (by omega) hc]
    have hb : 65536 ≤ s.optind := by
      by_contra hb
      exact hc (by rw [h2, u16_of_lt (by omega) (by omega)])
    ext <;> simp [h2, h3 hb]
  · exact getopt_normalize_id s (by omega) hc

theorem getopt_apply_idem (r : GRes) (s : GState) :
    getopt_apply r (getopt_apply r s) = getopt_apply r s := by
  unfold getopt_apply
  cases r.wOptind <;> cases r.wNc <;> cases r.wOptopt <;> cases r.wOptarg <;> simp

theorem getopt_apply_prev (r : GRes) (s : GState) :
    (getopt_apply r s).prev = u16 (getopt_apply r s).optind := by
  unfold getopt_apply
  simp

/-! ### Cursor-state bisimulation: the observable behaviour of a call depends
on the packed cursor only through its clamped value. -/

/-- Two states that the engine cannot distinguish: same `optind`, same
`prev_next_index`, and cursors that are either equal or both in the
"start of element" zone that clamps to 1. -/
def cursorEquiv (s t : GState) : Prop :=
  s.optind = t.optind ∧ s.prev = t.prev ∧ (s.nc = t.nc ∨ (s.nc ≤ 1 ∧ t.nc ≤ 1))

theorem cursorEquiv_clamp {s t : GState} (h : cursorEquiv s t) (L : Nat) :
    clampNC s.nc L = clampNC t.nc L := by
  rcases h.2.2 with h | ⟨ha, hb⟩
  · rw [h]
  · rw [clampNC_of_le_one L ha, clampNC_of_le_one L hb]

theorem getopt_normalize_equiv {s t : GState} (h : cursorEquiv s t) :
    cursorEquiv (getopt_normalize s) (getopt_normalize t) := by
  obtain ⟨h1, h2, h3⟩ := h
  by_cases hr : s.optind < 1
  · rw [getopt_normalize_reset s hr, getopt_normalize_reset t (h1 ▸ hr)]
    exact ⟨rfl, rfl, Or.inl rfl⟩
  · have hrt : ¬ t.optind < 1 := h1 ▸ hr
    by_cases hs : s.optind ≠ (s.prev : Int)
    · have hst : t.optind ≠ (t.prev : Int) := by
        rw [← h1, ← h2]
        exact hs
      rw [getopt_normalize_sync s hr hs, getopt_normalize_sync t hrt hst]
      exact ⟨h1, by rw [h1], Or.inl rfl⟩
    · have hst : ¬ t.optind ≠ (t.prev : Int) := by
        rw [← h1, ← h2]
        exact hs
      rw [getopt_normalize_id s hr hs, getopt_normalize_id t hrt hst]
      exact ⟨h1, h2, h3⟩

theorem getopt_apply_equiv (r : GRes) {s t : GState} (h : cursorEquiv s t) :
    cursorEquiv (getopt_apply r s) (getopt_apply r t) := by
  obtain ⟨h1, h2, h3⟩ := h
  unfold getopt_apply
  refine ⟨?_, ?_, ?_⟩ <;> dsimp only
  · rw [h1]
  · rw [h1]
  · cases hw : r.wNc
    · simpa using h3
    · simp

theorem getopt_core_tbl_early (A : GArgs) (tbl : OptTable) (s : GState)
    (hc : (A.argv.length : Int) ≤ s.optind) :
    getopt_core_tbl A tbl s =
      (⟨-1, .endOfOptions, none, none, none, none, none, none⟩, s) := by
  unfold getopt_core_tbl
  rw [if_pos hc]

theorem getopt_core_tbl_snd (A : GArgs) (tbl : OptTable) (s : GState)
    (hc : ¬ (A.argv.length : Int) ≤ s.optind) :
    (getopt_core_tbl A tbl s).2 = getopt_apply (getopt_core_tbl A tbl s).1 s := by
  unfold getopt_core_tbl
  rw [if_neg hc]

theorem getopt_core_tbl_fst (A : GArgs) (tbl : OptTable) (s : GState)
    (hc : ¬ (A.argv.length : Int) ≤ s.optind) :
    (getopt_core_tbl A tbl s).1 = getopt_classify A tbl s := by
  unfold getopt_core_tbl
  rw [if_neg hc]

theorem getopt_classify_congr (A : GArgs) (tbl : OptTable) {s t : GState}
    (h1 : s.optind = t.optind)
    (h2 : clampNC s.nc (strlenC (argvAt A.argv s.optind)) =
          clampNC t.nc (strlenC (argvAt A.argv s.optind))) :
    getopt_classify A tbl s = getopt_classify A tbl t := by
  unfold getopt_classify
  dsimp only
  rw [← h1, ← h2]

theorem getopt_core_tbl_res_congr (A : GArgs) (tbl : OptTable) {s t : GState}
    (h1 : s.optind = t.optind)
    (h2 : clampNC s.nc (strlenC (argvAt A.argv s.optind)) =
          clampNC t.nc (strlenC (argvAt A.argv s.optind))) :
    (getopt_core_tbl A tbl s).1 = (getopt_core_tbl A tbl t).1 := by
  by_cases hc : (A.argv.length : Int) ≤ s.optind
  · rw [getopt_core_tbl_early A tbl s hc, getopt_core_tbl_early A tbl t (h1 ▸ hc)]
  · rw [getopt_core_tbl_fst A tbl s hc, getopt_core_tbl_fst A tbl t (by rw [← h1]; exact hc)]
    exact getopt_classify_congr A tbl h1 h2

theorem getopt_core_tbl_equiv (A : GArgs) (tbl : OptTable) {s t : GState}
    (h : cursorEquiv s t) :
    (getopt_core_tbl A tbl s).1 = (getopt_core_tbl A tbl t).1 ∧
    cursorEquiv (getopt_core_tbl A tbl s).2 (getopt_core_tbl A tbl t).2 := by
  have hres := getopt_core_tbl_res_congr A tbl h.1 (cursorEquiv_clamp h _)
  refine ⟨hres, ?_⟩
  by_cases hc : (A.argv.length : Int) ≤ s.optind
  · rw [getopt_core_tbl_early A tbl s hc, getopt_core_tbl_early A tbl t (h.1 ▸ hc)]
    exact h
  · rw [getopt_core_tbl_snd A tbl s hc,
        getopt_core_tbl_snd A tbl t (by rw [← h.1]; exact hc), ← hres]
    exact getopt_apply_equiv _ h

theorem zephyr_getopt_equiv (A : GArgs) {s t : GState} (h : cursorEquiv s t) :
    (zephyr_getopt A s).1 = (zephyr_getopt A t).1 ∧
    cursorEquiv (zephyr_getopt A s).2 (zephyr_getopt A t).2 :=
  getopt_core_tbl_equiv A _ (getopt_normalize_equiv h)

theorem getopt_trace_equiv (A : GArgs) (n : Nat) :
    ∀ {s t : GState}, cursorEquiv s t → getopt_trace A n s = getopt_trace A n t := by
  induction n with
  | zero => intro s t _; rfl
  | succ m ih =>
    intro s t h
    have hc := zephyr_getopt_equiv A h
    show ((zephyr_getopt A s).1, (zephyr_getopt A s).2.optind) ::
           getopt_trace A m (zephyr_getopt A s).2 =
         ((zephyr_getopt A t).1, (zephyr_getopt A t).2.optind) ::
           getopt_trace A m (zephyr_getopt A t).2
    rw [hc.1, hc.2.1, ih hc.2]

/-! ### C8 -/

/-- C8: replaying the call sequence from a freshly reset `ParseState` (any
state whose `next_index` the caller has put below 1, per the reset protocol)
reproduces the identical sequence of results — each call's full result record
and the `next_index` it leaves — as running it from the canonical fresh
state; each call is a function of argc/argv/optstring/table and the state
quadruple alone, with no hidden storage. -/
theorem C8_replay_reproduces_trace (A : GArgs) (n : Nat) (s : GState)
    (h : s.optind < 1) : getopt_trace A n s = getopt_trace A n freshGState := by
  cases n with
  | zero => rfl
  | succ m =>
    have hfresh : getopt_normalize freshGState = ⟨1, 1, 1, 0, none⟩ := by decide
    have he : cursorEquiv (getopt_normalize s) (getopt_normalize freshGState) := by
      rw [getopt_normalize_reset s h, hfresh]
      exact ⟨rfl, rfl, Or.inr ⟨Nat.zero_le 1, Nat.le_refl 1⟩⟩
    have hc := getopt_core_tbl_equiv A (getopt_parse_optstring A.optstring) he
    show ((getopt_core_tbl A (getopt_parse_optstring A.optstring) (getopt_normalize s)).1,
          (getopt_core_tbl A (getopt_parse_optstring A.optstring) (getopt_normalize s)).2.optind) ::
         getopt_trace A m
           (getopt_core_tbl A (getopt_parse_optstring A.optstring) (getopt_normalize s)).2 =
         ((getopt_core_tbl A (getopt_parse_optstring A.optstring)
             (getopt_normalize freshGState)).1,
          (getopt_core_tbl A (getopt_parse_optstring A.optstring)
             (getopt_normalize freshGState)).2.optind) ::
         getopt_trace A m
           (getopt_core_tbl A (getopt_parse_optstring A.optstring)
             (getopt_normalize freshGState)).2
    rw [hc.1, hc.2.1, getopt_trace_equiv A m hc.2]

/-- C8 witness: a three-call replay on the spec's short-option scenario from
a polluted but reset state (`next_index = 0`) coincides with the fresh run. -/
theorem C8_replay_reproduces_trace_witness :
    getopt_trace C8args 3 ⟨0, 7, 9, 42, some ['z']⟩ = getopt_trace C8args 3 freshGState :=
  C8_replay_reproduces_trace C8args 3 ⟨0, 7, 9, 42, some ['z']⟩ (by decide)

/-! ### C4, amended -/

/-- C4 as amended: setting `next_index` to any value BELOW 1 before the next
call restarts scanning with the cursor state reinitialized, and that call
returns the same result record and leaves the same `next_index` as the first
call of a fresh session.  (Setting it to exactly 1 does not reinitialize the
cursor when the engine was already mid-cluster at `argv[1]`.) -/
theorem C4_reset_below_one_restarts (A : GArgs) (s : GState) (h : s.optind < 1) :
    (zephyr_getopt A s).1 = (zephyr_getopt A freshGState).1 ∧
    (zephyr_getopt A s).2.optind = (zephyr_getopt A freshGState).2.optind := by
  have hfresh : getopt_normalize freshGState = ⟨1, 1, 1, 0, none⟩ := by decide
  have he : cursorEquiv (getopt_normalize s) (getopt_normalize freshGState) := by
    rw [getopt_normalize_reset s h, hfresh]
    exact ⟨rfl, rfl, Or.inr ⟨Nat.zero_le 1, Nat.le_refl 1⟩⟩
  have hc := getopt_core_tbl_equiv A (getopt_parse_optstring A.optstring) he
  exact ⟨hc.1, hc.2.1⟩

/-- C4 witness: the mid-cluster state of the counterexample, reset below 1,
replays the fresh session's first call. -/
theorem C4_reset_below_one_restarts_witness :
    (zephyr_getopt C4args ⟨0, 1, 2, 97, none⟩).1 = (zephyr_getopt C4args freshGState).1 ∧
    (zephyr_getopt C4args ⟨0, 1, 2, 97, none⟩).2.optind =
      (zephyr_getopt C4args freshGState).2.optind :=
  C4_reset_below_one_restarts C4args ⟨0, 1, 2, 97, none⟩ (by decide)

/-! ### Shape lemmas: what each step may write -/

theorem getopt_apply_optind (r : GRes) (s : GState) :
    (getopt_apply r s).optind = r.wOptind.getD s.optind := rfl

theorem getopt_apply_nc (r : GRes) (s : GState) :
    (getopt_apply r s).nc = r.wNc.getD s.nc := rfl

theorem getopt_apply_optopt (r : GRes) (s : GState) :
    (getopt_apply r s).optopt = r.wOptopt.getD s.optopt := rfl

theorem getopt_apply_optarg (r : GRes) (s : GState) :
    (getopt_apply r s).optarg = r.wOptarg.getD s.optarg := rfl

theorem getopt_longopt_act_wOptind (argc : Int) (argv : List (List Char)) (idx : Int)
    (arg : List Char) (k : Nat) (opt : LongOption) (tbl : OptTable) (lonly : Bool) :
    (getopt_longopt_act argc argv idx arg k opt tbl lonly).wOptind = none ∨
    (getopt_longopt_act argc argv idx arg k opt tbl lonly).wOptind = some (idx + 1) ∨
    ((getopt_longopt_act argc argv idx arg k opt tbl lonly).wOptind = some (idx + 2) ∧
      ¬ argc ≤ idx + 1) := by
  unfold getopt_longopt_act getopt_longopt_err
  dsimp only
  split_ifs <;> simp_all

theorem getopt_match_longopt_wOptind (argc : Int) (argv : List (List Char)) (idx : Int)
    (tbl : OptTable) (lonly : Bool) (lopts : List LongOption) :
    (getopt_match_longopt argc argv idx tbl lonly lopts).wOptind = none ∨
    (getopt_match_longopt argc argv idx tbl lonly lopts).wOptind = some (idx + 1) ∨
    ((getopt_match_longopt argc argv idx tbl lonly lopts).wOptind = some (idx + 2) ∧
      ¬ argc ≤ idx + 1) := by
  unfold getopt_match_longopt
  dsimp only
  split
  · exact Or.inl rfl
  split
  · exact Or.inl rfl
  exact getopt_longopt_act_wOptind _ _ _ _ _ _ _ _

theorem getopt_short_scan_wOptind (argc : Int) (argv : List (List Char)) (tbl : OptTable)
    (i : Int) (arg : List Char) (j : Nat) :
    (getopt_short_scan argc argv tbl i arg j).wOptind = some i ∨
    (getopt_short_scan argc argv tbl i arg j).wOptind = some (i + 1) ∨
    ((getopt_short_scan argc argv tbl i arg j).wOptind = some (i + 2) ∧ i + 1 < argc) := by
  unfold getopt_short_scan
  dsimp only
  split
  · exact Or.inl rfl
  split_ifs <;> simp_all

theorem getopt_classify_wOptind (A : GArgs) (tbl : OptTable) (s : GState) :
    (getopt_classify A tbl s).wOptind = none ∨
    (getopt_classify A tbl s).wOptind = some s.optind ∨
    (getopt_classify A tbl s).wOptind = some (s.optind + 1) ∨
    ((getopt_classify A tbl s).wOptind = some (s.optind + 2) ∧
      s.optind + 1 < (A.argv.length : Int)) := by
  unfold getopt_classify
  dsimp only
  split
  · exact Or.inl rfl
  · split
    · exact Or.inr (Or.inr (Or.inl rfl))
    · split
      · rcases getopt_short_scan_wOptind (A.argv.length : Int) A.argv tbl s.optind
          (argvAt A.argv s.optind) (clampNC s.nc (strlenC (argvAt A.argv s.optind))) with
          h | h | ⟨h, hlt⟩
        · exact Or.inr (Or.inl h)
        · exact Or.inr (Or.inr (Or.inl h))
        · exact Or.inr (Or.inr (Or.inr ⟨h, hlt⟩))
      · rename_i lopts heq
        split_ifs with hz he hm
        · rcases getopt_match_longopt_wOptind (A.argv.length : Int) A.argv s.optind tbl
            A.longonly lopts with h | h | ⟨h, hlt⟩
          · exact Or.inl (by simp [h])
          · exact Or.inr (Or.inr (Or.inl (by simp [h])))
          · exact Or.inr (Or.inr (Or.inr ⟨by simp [h], by omega⟩))
        · rcases getopt_match_longopt_wOptind (A.argv.length : Int) A.argv s.optind tbl
            A.longonly lopts with h | h | ⟨h, hlt⟩
          · exact Or.inl h
          · exact Or.inr (Or.inr (Or.inl h))
          · exact Or.inr (Or.inr (Or.inr ⟨h, by omega⟩))
        · rcases getopt_short_scan_wOptind (A.argv.length : Int) A.argv tbl s.optind
            (argvAt A.argv s.optind) (clampNC s.nc (strlenC (argvAt A.argv s.optind))) with
            h | h | ⟨h, hlt⟩
          · exact Or.inr (Or.inl h)
          · exact Or.inr (Or.inr (Or.inl h))
          · exact Or.inr (Or.inr (Or.inr ⟨h, hlt⟩))
        · rcases getopt_match_longopt_wOptind (A.argv.length : Int) A.argv s.optind tbl
            A.longonly lopts with h | h | ⟨h, hlt⟩
          · exact Or.inl (by simp [h])
          · exact Or.inr (Or.inr (Or.inl (by simp [h])))
          · exact Or.inr (Or.inr (Or.inr ⟨by simp [h], by omega⟩))

theorem getopt_core_tbl_fst_wOptind (A : GArgs) (tbl : OptTable) (s : GState)
    (hc : ¬ (A.argv.length : Int) ≤ s.optind) :
    (getopt_core_tbl A tbl s).1.wOptind = none ∨
    (getopt_core_tbl A tbl s).1.wOptind = some s.optind ∨
    (getopt_core_tbl A tbl s).1.wOptind = some (s.optind + 1) ∨
    ((getopt_core_tbl A tbl s).1.wOptind = some (s.optind + 2) ∧
      s.optind + 1 < (A.argv.length : Int)) := by
  rw [getopt_core_tbl_fst A tbl s hc]
  exact getopt_classify_wOptind A tbl s

/-! ### C10, amended -/

theorem getopt_normalize_prev2 (s : GState) (h : s.optind < 65536) :
    (getopt_normalize s).prev = u16 (getopt_normalize s).optind := by
  by_cases h1 : s.optind < 1
  · rw [getopt_normalize_reset s h1]
    dsimp only
    unfold u16
    decide
  · by_cases h2 : s.optind ≠ (s.prev : Int)
    · rw [getopt_normalize_sync s h1 h2]
    · rw [getopt_normalize_id s h1 h2]
      simp only [ne_eq, not_not] at h2
      unfold u16
      omega

/-- C10 as amended: provided the entering `next_index` is in `[1, 2^16)` and
`argc` is at most `2^16 - 2` (so no index the call can produce is truncated
by the `(uint16_t)` store), on exit the decoded `prev_next_index` equals the
final `next_index`, the final `next_index` is at least 1, and the entry
protocol of the following call is the identity — the "new argv" cursor-reset
branch cannot trigger, preserving clustered-option cursor continuity. -/
theorem C10_prev_tracks_optind (A : GArgs) (s : GState)
    (h1 : 1 ≤ s.optind) (h2 : s.optind < 65536)
    (h3 : (A.argv.length : Int) ≤ 65534) :
    ((zephyr_getopt A s).2.prev : Int) = (zephyr_getopt A s).2.optind ∧
    1 ≤ (zephyr_getopt A s).2.optind ∧
    getopt_normalize (zephyr_getopt A s).2 = (zephyr_getopt A s).2 := by
  have hni : (getopt_normalize s).optind = s.optind := getopt_normalize_optind_ge s h1
  by_cases hc : (A.argv.length : Int) ≤ (getopt_normalize s).optind
  · have hpost : (zephyr_getopt A s).2 = getopt_normalize s := by
      show (getopt_core_tbl A (getopt_parse_optstring A.optstring) (getopt_normalize s)).2 = _
      rw [getopt_core_tbl_early A (getopt_parse_optstring A.optstring) (getopt_normalize s) hc]
    have hprev := getopt_normalize_prev2 s (by omega)
    rw [hpost]
    refine ⟨?_, getopt_normalize_optind_pos s, ?_⟩
    · rw [hprev, hni]
      exact u16_of_lt (by omega) h2
    · refine getopt_normalize_eq_self _ (getopt_normalize_optind_pos s) hprev ?_
      rw [hni]
      intro hb
      omega
  · have hpost : (zephyr_getopt A s).2 =
        getopt_apply (getopt_core_tbl A (getopt_parse_optstring A.optstring)
          (getopt_normalize s)).1 (getopt_normalize s) := by
      show (getopt_core_tbl A (getopt_parse_optstring A.optstring) (getopt_normalize s)).2 = _
      exact getopt_core_tbl_snd A _ _ hc
    have hw := getopt_core_tbl_fst_wOptind A (getopt_parse_optstring A.optstring)
      (getopt_normalize s) hc
    rw [hni] at hc hw
    have hbound : 1 ≤ (zephyr_getopt A s).2.optind ∧ (zephyr_getopt A s).2.optind < 65536 := by
      rw [hpost, getopt_apply_optind]
      rcases hw with h | h | h | ⟨h, hlt⟩ <;> rw [h] <;> simp [hni] <;> omega
    have hprevpost : (zephyr_getopt A s).2.prev = u16 ((zephyr_getopt A s).2.optind) := by
      rw [hpost]
      exact getopt_apply_prev _ _
    refine ⟨?_, hbound.1, ?_⟩
    · rw [hprevpost]
      exact u16_of_lt (by omega) hbound.2
    · refine getopt_normalize_eq_self _ hbound.1 hprevpost ?_
      intro hb
      omega

/-- C10 witness: the amended invariant at a concrete end-of-options call. -/
theorem C10_prev_tracks_optind_witness :
    ((zephyr_getopt C10args freshGState).2.prev : Int) =
      (zephyr_getopt C10args freshGState).2.optind ∧
    1 ≤ (zephyr_getopt C10args freshGState).2.optind ∧
    getopt_normalize (zephyr_getopt C10args freshGState).2 =
      (zephyr_getopt C10args freshGState).2 :=
  C10_prev_tracks_optind C10args freshGState (by decide) (by decide) (by decide)

/-! ### C9: error outcomes and the writes they perform -/

theorem getopt_longopt_act_err (argc : Int) (argv : List (List Char)) (idx : Int)
    (arg : List Char) (k : Nat) (opt : LongOption) (tbl : OptTable) (lonly : Bool) :
    ((getopt_longopt_act argc argv idx arg k opt tbl lonly).kind = RKind.unknownOpt ∨
     (getopt_longopt_act argc argv idx arg k opt tbl lonly).kind = RKind.missingArg) →
    (getopt_longopt_act argc argv idx arg k opt tbl lonly).wOptind = none ∧
    (getopt_longopt_act argc argv idx arg k opt tbl lonly).wNc = none ∧
    ((getopt_longopt_act argc argv idx arg k opt tbl lonly).ret = 58 ∨
     (getopt_longopt_act argc argv idx arg k opt tbl lonly).ret = 63) := by
  unfold getopt_longopt_act getopt_longopt_err
  dsimp only
  split_ifs <;> intro h <;> simp_all

theorem getopt_match_longopt_err (argc : Int) (argv : List (List Char)) (idx : Int)
    (tbl : OptTable) (lonly : Bool) (lopts : List LongOption) :
    ((getopt_match_longopt argc argv idx tbl lonly lopts).kind = RKind.unknownOpt ∨
     (getopt_match_longopt argc argv idx tbl lonly lopts).kind = RKind.missingArg) →
    (getopt_match_longopt argc argv idx tbl lonly lopts).wOptind = none ∧
    (getopt_match_longopt argc argv idx tbl lonly lopts).wNc = none ∧
    ((getopt_match_longopt argc argv idx tbl lonly lopts).ret = 58 ∨
     (getopt_match_longopt argc argv idx tbl lonly lopts).ret = 63) := by
  unfold getopt_match_longopt
  dsimp only
  split
  · intro h
    simp at h
  · split
    · intro h
      simp at h
    · exact getopt_longopt_act_err _ _ _ _ _ _ _ _

theorem getopt_short_scan_err (argc : Int) (argv : List (List Char)) (tbl : OptTable)
    (i : Int) (arg : List Char) (j : Nat) :
    ((getopt_short_scan argc argv tbl i arg j).kind = RKind.unknownOpt ∨
     (getopt_short_scan argc argv tbl i arg j).kind = RKind.missingArg) →
    (getopt_short_scan argc argv tbl i arg j).wOptind = some i ∧
    (getopt_short_scan argc argv tbl i arg j).wNc = some j := by
  unfold getopt_short_scan
  dsimp only
  split
  · intro _
    exact ⟨rfl, rfl⟩
  · split_ifs <;> intro h <;> first | exact ⟨rfl, rfl⟩ | simp_all

theorem getopt_classify_err_writes (A : GArgs) (tbl : OptTable) (s : GState) :
    ((getopt_classify A tbl s).kind = RKind.unknownOpt ∨
     (getopt_classify A tbl s).kind = RKind.missingArg) →
    ((getopt_classify A tbl s).wOptind = none ∨
     (getopt_classify A tbl s).wOptind = some s.optind) ∧
    ((getopt_classify A tbl s).wNc = none ∨
     (getopt_classify A tbl s).wNc =
       some (clampNC s.nc (strlenC (argvAt A.argv s.optind)))) := by
  unfold getopt_classify
  dsimp only
  split
  · intro _
    exact ⟨Or.inl rfl, Or.inl rfl⟩
  · split
    · intro h
      simp at h
    · split
      · intro h
        have hs := getopt_short_scan_err _ _ _ _ _ _ h
        exact ⟨Or.inr hs.1, Or.inr hs.2⟩
      · rename_i lopts heq
        split_ifs with hz he hm <;> intro h
        · dsimp only at h
          have := getopt_match_longopt_err _ _ _ _ _ _ h
          omega
        · have := getopt_match_longopt_err _ _ _ _ _ _ h
          exact ⟨Or.inl this.1, Or.inl this.2.1⟩
        · have hs := getopt_short_scan_err _ _ _ _ _ _ h
          exact ⟨Or.inr hs.1, Or.inr hs.2⟩
        · dsimp only at h
          have := getopt_match_longopt_err _ _ _ _ _ _ h
          omega

/-- C9: after a call reports `UnknownOption` or `MissingArgument`, the state
quadruple is a fixed point: the next call with the same inputs returns the
identical result record and leaves the quadruple unchanged — the parser never
advances past a failing option on its own.  (`prev < 2^16` states that the
entering `prev_next_index` is a representable uint16 value.) -/
theorem C9_error_state_stable (A : GArgs) (s : GState) (hWF : s.prev < 65536)
    (hk : (zephyr_getopt A s).1.kind = RKind.unknownOpt ∨
          (zephyr_getopt A s).1.kind = RKind.missingArg) :
    zephyr_getopt A (zephyr_getopt A s).2 = zephyr_getopt A s := by
  have hpos : 1 ≤ (getopt_normalize s).optind := getopt_normalize_optind_pos s
  have hbig : 65536 ≤ (getopt_normalize s).optind → (getopt_normalize s).nc = 1 :=
    getopt_normalize_nc_big s hWF
  by_cases hc : (A.argv.length : Int) ≤ (getopt_normalize s).optind
  · exfalso
    have hkind : (zephyr_getopt A s).1.kind = RKind.endOfOptions := by
      show (getopt_core_tbl A (getopt_parse_optstring A.optstring)
        (getopt_normalize s)).1.kind = _
      rw [getopt_core_tbl_early A (getopt_parse_optstring A.optstring) (getopt_normalize s) hc]
    rw [hkind] at hk
    simp at hk
  · have hfst : (zephyr_getopt A s).1 =
        getopt_classify A (getopt_parse_optstring A.optstring) (getopt_normalize s) := by
      show (getopt_core_tbl A (getopt_parse_optstring A.optstring) (getopt_normalize s)).1 = _
      exact getopt_core_tbl_fst A _ _ hc
    have hsnd : (zephyr_getopt A s).2 =
        getopt_apply (getopt_classify A (getopt_parse_optstring A.optstring)
          (getopt_normalize s)) (getopt_normalize s) := by
      show (getopt_core_tbl A (getopt_parse_optstring A.optstring) (getopt_normalize s)).2 = _
      rw [getopt_core_tbl_snd A _ _ hc, getopt_core_tbl_fst A _ _ hc]
    rw [hfst] at hk
    have hw := getopt_classify_err_writes A (getopt_parse_optstring A.optstring)
      (getopt_normalize s) hk
    have hoptind' : (zephyr_getopt A s).2.optind = (getopt_normalize s).optind := by
      rw [hsnd, getopt_apply_optind]
      rcases hw.1 with h | h <;> rw [h] <;> simp
    have hprev' : (zephyr_getopt A s).2.prev = u16 ((zephyr_getopt A s).2.optind) := by
      rw [hsnd]
      exact getopt_apply_prev _ _
    have hclamp : clampNC ((zephyr_getopt A s).2.nc)
        (strlenC (argvAt A.argv (getopt_normalize s).optind)) =
        clampNC ((getopt_normalize s).nc)
        (strlenC (argvAt A.argv (getopt_normalize s).optind)) := by
      rw [hsnd, getopt_apply_nc]
      rcases hw.2 with h | h <;> rw [h] <;> simp
      exact clampNC_idem _ _
    have hncbig : 65536 ≤ (zephyr_getopt A s).2.optind → (zephyr_getopt A s).2.nc = 1 := by
      intro hb
      rw [hoptind'] at hb
      have h1 := hbig hb
      rw [hsnd, getopt_apply_nc]
      rcases hw.2 with h | h <;> rw [h] <;> simp
      · exact h1
      · rw [h1]
        exact clampNC_of_le_one _ (Nat.le_refl 1)
    have hfix : getopt_normalize ((zephyr_getopt A s).2) = (zephyr_getopt A s).2 :=
      getopt_normalize_eq_self _ (by rw [hoptind']; exact hpos) hprev' hncbig
    have hc' : ¬ (A.argv.length : Int) ≤ (zephyr_getopt A s).2.optind := by
      rw [hoptind']
      exact hc
    have hcl : getopt_classify A (getopt_parse_optstring A.optstring) ((zephyr_getopt A s).2)
        = getopt_classify A (getopt_parse_optstring A.optstring) (getopt_normalize s) :=
      getopt_classify_congr A _ hoptind' (by rw [hoptind']; exact hclamp)
    have hres2 : (getopt_core_tbl A (getopt_parse_optstring A.optstring)
        ((zephyr_getopt A s).2)).1 = (zephyr_getopt A s).1 := by
      rw [hfst, getopt_core_tbl_fst A _ _ hc']
      exact hcl
    have hsnd2 : (getopt_core_tbl A (getopt_parse_optstring A.optstring)
        ((zephyr_getopt A s).2)).2 = (zephyr_getopt A s).2 := by
      rw [getopt_core_tbl_snd A _ _ hc', getopt_core_tbl_fst A _ _ hc', hcl, hsnd,
        getopt_apply_idem]
    show getopt_core_tbl A (getopt_parse_optstring A.optstring)
        (getopt_normalize ((zephyr_getopt A s).2)) = zephyr_getopt A s
    rw [hfix]
    exact Prod.ext hres2 hsnd2

/-- C9 witness: the unknown-option state for `argv = ["cmd", "-x"]`,
optstring `"a"` is stable under a repeated call. -/
theorem C9_error_state_stable_witness :
    zephyr_getopt C9args (zephyr_getopt C9args freshGState).2 =
      zephyr_getopt C9args freshGState :=
  C9_error_state_stable C9args freshGState (by decide) (by decide)

/-! ### C1, amended: the long-option match policy -/

theorem getopt_longopt_search_aux (arg : List Char) :
    ∀ (lopts : List LongOption) (acc k : Nat) (opt : LongOption),
    getopt_longopt_search arg lopts acc = some (k, opt) ↔
      ∃ m, k = acc + m ∧ lopts.get? m = some opt ∧
        strncmp_eq arg opt.name (strlenC opt.name) = true ∧
        ∀ j o, j < m → lopts.get? j = some o →
          strncmp_eq arg o.name (strlenC o.name) = false := by
  intro lopts
  induction lopts with
  | nil =>
    intro acc k opt
    constructor
    · intro h
      simp [getopt_longopt_search] at h
    · rintro ⟨m, _, hm, _⟩
      simp at hm
  | cons o rest ih =>
    intro acc k opt
    unfold getopt_longopt_search
    by_cases hm0 : strncmp_eq arg o.name (strlenC o.name) = true
    · rw [if_pos hm0]
      constructor
      · intro h
        simp only [Option.some.injEq, Prod.mk.injEq] at h
        obtain ⟨hk, ho⟩ := h
        refine ⟨0, by omega, by simp [ho], by rw [← ho]; exact hm0, ?_⟩
        intro j o' hj
        omega
      · rintro ⟨m, hkm, hget, hmatch, hmin⟩
        cases m with
        | zero =>
          simp only [List.get?_cons_zero, Option.some.injEq] at hget
          simp [hkm, hget]
        | succ m' =>
          exfalso
          have hf := hmin 0 o (Nat.succ_pos m') (by simp)
          rw [hm0] at hf
          simp at hf
    · rw [if_neg hm0]
      rw [ih (acc + 1) k opt]
      have hm0f : strncmp_eq arg o.name (strlenC o.name) = false := by
        simpa using hm0
      constructor
      · rintro ⟨m, hkm, hget, hmatch, hmin⟩
        refine ⟨m + 1, by omega, by simpa using hget, hmatch, ?_⟩
        intro j o' hj ho'
        cases j with
        | zero =>
          simp only [List.get?_cons_zero, Option.some.injEq] at ho'
          rw [← ho']
          exact hm0f
        | succ j' =>
          exact hmin j' o' (by omega) (by simpa using ho')
      · rintro ⟨m, hkm, hget, hmatch, hmin⟩
        cases m with
        | zero =>
          exfalso
          simp only [List.get?_cons_zero, Option.some.injEq] at hget
          rw [← hget] at hmatch
          rw [hm0f] at hmatch
          simp at hmatch
        | succ m' =>
          refine ⟨m', by omega, by simpa using hget, hmatch, ?_⟩
          intro j o' hj ho'
          exact hmin (j + 1) o' (by omega) (by simpa using ho')

/-- C1 as amended: the matcher reports a match against the descriptor at
table index `k` exactly when that descriptor's full name is a NUL-bounded
byte-for-byte PREFIX of the element's stripped text and no earlier
descriptor's name is; byte-for-byte equality of the element's name part (up
to end-of-string or `=`) with the descriptor name is NOT required, so an
element whose stripped text merely begins with the descriptor name followed
by other characters (e.g. `--filename` against `file`) does match. -/
theorem C1_long_match_policy (arg : List Char) (lopts : List LongOption)
    (k : Nat) (opt : LongOption) :
    getopt_longopt_search arg lopts 0 = some (k, opt) ↔
      (lopts.get? k = some opt ∧
       strncmp_eq arg opt.name (strlenC opt.name) = true ∧
       ∀ j o, j < k → lopts.get? j = some o →
         strncmp_eq arg o.name (strlenC o.name) = false) := by
  rw [getopt_longopt_search_aux arg lopts 0 k opt]
  constructor
  · rintro ⟨m, hm, h1, h2, h3⟩
    have hmk : m = k := by omega
    subst hmk
    exact ⟨h1, h2, h3⟩
  · intro h
    exact ⟨k, by omega, h⟩

/-- C1 witness: the policy instantiated at the counterexample's table and the
stripped element `filename`. -/
theorem C1_long_match_policy_witness :
    getopt_longopt_search ['f', 'i', 'l', 'e', 'n', 'a', 'm', 'e']
        [⟨['f', 'i', 'l', 'e'], 0, false, 102⟩] 0 =
      some (0, ⟨['f', 'i', 'l', 'e'], 0, false, 102⟩) ↔
      ([⟨['f', 'i', 'l', 'e'], 0, false, 102⟩] :
          List LongOption).get? 0 = some ⟨['f', 'i', 'l', 'e'], 0, false, 102⟩ ∧
       strncmp_eq ['f', 'i', 'l', 'e', 'n', 'a', 'm', 'e'] ['f', 'i', 'l', 'e']
         (strlenC ['f', 'i', 'l', 'e']) = true ∧
       ∀ j o, j < 0 →
         ([⟨['f', 'i', 'l', 'e'], 0, false, 102⟩] : List LongOption).get? j = some o →
         strncmp_eq ['f', 'i', 'l', 'e', 'n', 'a', 'm', 'e'] o.name (strlenC o.name) = false :=
  C1_long_match_policy ['f', 'i', 'l', 'e', 'n', 'a', 'm', 'e']
    [⟨['f', 'i', 'l', 'e'], 0, false, 102⟩] 0 ⟨['f', 'i', 'l', 'e'], 0, false, 102⟩

/-! ### C3, amended -/

/-- C3 as amended: for `argv = ["cmd", "--file=data.txt"]` and the table
`{"file", required, null, 'f'}`, any optstring that registers `f` as an
argument-taking short option (bit 5 of the `requires_arg` mask, e.g. `"f:"`)
yields `Matched('f', "data.txt")` with `next_index` advanced to 2; the
matcher's cross-check rejects the call for optstrings that do not. -/
theorem C3_long_required_inline_match (o : List Char) (om am : Nat) (col : Bool)
    (hp : getopt_parse_optstring o = ⟨om, am, col⟩)
    (ha : am.testBit 5 = true) :
    (zephyr_getopt (C3args o) freshGState).1.ret = 102 ∧
    (zephyr_getopt (C3args o) freshGState).1.kind = RKind.matched ∧
    (zephyr_getopt (C3args o) freshGState).2.optarg =
      some ['d', 'a', 't', 'a', '.', 't', 'x', 't'] ∧
    (zephyr_getopt (C3args o) freshGState).2.optind = 2 := by
  have hps : getopt_parse_optstring (C3args o).optstring = ⟨om, am, col⟩ := hp
  have hn : getopt_normalize freshGState = ⟨1, 1, 1, 0, none⟩ := by decide
  have hcall : zephyr_getopt (C3args o) freshGState =
      getopt_core_tbl (C3args o) ⟨om, am, col⟩ ⟨1, 1, 1, 0, none⟩ := by
    show getopt_core_tbl (C3args o) (getopt_parse_optstring (C3args o).optstring)
        (getopt_normalize freshGState) = _
    rw [hps, hn]
  rw [hcall]
  simp +decide only [getopt_core_tbl, getopt_classify, getopt_match_longopt,
    getopt_longopt_act, getopt_longopt_search, getopt_longopt_err, getopt_short_scan,
    getopt_apply, C3args, argCmd, argvAt, cidx, strlenC, strncmp_eq,
    getopt_char_to_mask_index, cInt, u16, clampNC, nul, ha]
  simp +decide [ha, strlenC, nul]

/-- C3 witness: the optstring `"f:"` registers `f` as argument-taking, so the
spec's scenario returns `Matched('f', "data.txt")`. -/
theorem C3_long_required_inline_match_witness :
    (zephyr_getopt (C3args ['f', ':']) freshGState).1.ret = 102 ∧
    (zephyr_getopt (C3args ['f', ':']) freshGState).1.kind = RKind.matched ∧
    (zephyr_getopt (C3args ['f', ':']) freshGState).2.optarg =
      some ['d', 'a', 't', 'a', '.', 't', 'x', 't'] ∧
    (zephyr_getopt (C3args ['f', ':']) freshGState).2.optind = 2 :=
  C3_long_required_inline_match ['f', ':'] 32 32 false (by decide) (by decide)

/-! ### C5, amended -/

/-- C5 as amended: with a long table supplied and `longonly` inactive, when
the current element begins with `--` (and is not exactly `--`) and matches no
descriptor, the matcher reports `NoMatch` (-1) and the driver falls back to
short-option scanning of the same element; with the cursor in its
start-of-element zone the first scanned character is the second `-`, which is
never a registered option, so the call returns `UnknownOption` mapped to
`'?'` with `last_char` set to `'-'` (45) and `next_index` retained at the
failing element. -/
theorem C5_nomatch_falls_back_to_short (A : GArgs) (s : GState) (lopts : List LongOption)
    (hl : A.longopts = some lopts) (hlo : A.longonly = false)
    (hc : (getopt_normalize s).optind < (A.argv.length : Int))
    (hnc : (getopt_normalize s).nc ≤ 1)
    (h0 : cidx (argvAt A.argv (getopt_normalize s).optind) 0 = '-')
    (h1 : cidx (argvAt A.argv (getopt_normalize s).optind) 1 = '-')
    (h2 : cidx (argvAt A.argv (getopt_normalize s).optind) 2 ≠ nul)
    (hs : getopt_longopt_search
      ((argvAt A.argv (getopt_normalize s).optind).drop 2) lopts 0 = none) :
    (zephyr_getopt A s).1.ret = 63 ∧
    (zephyr_getopt A s).1.kind = RKind.unknownOpt ∧
    (zephyr_getopt A s).2.optopt = 45 ∧
    (zephyr_getopt A s).2.optind = (getopt_normalize s).optind := by
  have hcn : ¬ (A.argv.length : Int) ≤ (getopt_normalize s).optind := not_le.mpr hc
  have hfst : (zephyr_getopt A s).1 =
      getopt_classify A (getopt_parse_optstring A.optstring) (getopt_normalize s) := by
    show (getopt_core_tbl A (getopt_parse_optstring A.optstring) (getopt_normalize s)).1 = _
    exact getopt_core_tbl_fst A _ _ hcn
  have hsnd : (zephyr_getopt A s).2 =
      getopt_apply (getopt_classify A (getopt_parse_optstring A.optstring)
        (getopt_normalize s)) (getopt_normalize s) := by
    show (getopt_core_tbl A (getopt_parse_optstring A.optstring) (getopt_normalize s)).2 = _
    rw [getopt_core_tbl_snd A _ _ hcn, getopt_core_tbl_fst A _ _ hcn]
  have hcls : getopt_classify A (getopt_parse_optstring A.optstring) (getopt_normalize s) =
      ⟨63, RKind.unknownOpt, none, some 45, some (getopt_normalize s).optind,
       some 1, none, none⟩ := by
    unfold getopt_classify getopt_match_longopt getopt_short_scan
    dsimp only
    rw [clampNC_of_le_one _ hnc]
    simp +decide [hl, hlo, h0, h1, h2, hs, cInt, getopt_char_to_mask_index]
  refine ⟨?_, ?_, ?_, ?_⟩
  · rw [hfst, hcls]
  · rw [hfst, hcls]
  · rw [hsnd, hcls, getopt_apply_optopt]
    simp
  · rw [hsnd, hcls, getopt_apply_optind]
    simp

/-- C5 witness: the counterexample's inputs instantiate the fallback. -/
theorem C5_nomatch_falls_back_to_short_witness :
    (zephyr_getopt C5args freshGState).1.ret = 63 ∧
    (zephyr_getopt C5args freshGState).1.kind = RKind.unknownOpt ∧
    (zephyr_getopt C5args freshGState).2.optopt = 45 ∧
    (zephyr_getopt C5args freshGState).2.optind = (getopt_normalize freshGState).optind :=
  C5_nomatch_falls_back_to_short C5args freshGState
    [⟨['v', 'e', 'r', 'b', 'o', 's', 'e'], 0, false, 118⟩]
    (by decide) (by decide) (by decide) (by decide) (by decide) (by decide) (by decide)
    (by decide)

/-! ### C6 -/

/-- C6: a short option registered as requiring an argument, scanned at the
cursor position of the last argv element with no characters following it in
the element, yields `MissingArgument`: return code `':'` when the optstring
has a leading colon and `'?'` otherwise, with `last_char` set to the option
character and `next_index` left at the failing element. -/
theorem C6_short_missing_arg_policy (A : GArgs) (s : GState) (c : Char) (ci : Nat)
    (hl : A.longopts = none)
    (hc : (getopt_normalize s).optind < (A.argv.length : Int))
    (hlast : (A.argv.length : Int) ≤ (getopt_normalize s).optind + 1)
    (h0 : cidx (argvAt A.argv (getopt_normalize s).optind) 0 = '-')
    (h1 : cidx (argvAt A.argv (getopt_normalize s).optind) 1 ≠ nul)
    (hdd : ¬ (cidx (argvAt A.argv (getopt_normalize s).optind) 1 = '-' ∧
              cidx (argvAt A.argv (getopt_normalize s).optind) 2 = nul))
    (hcj : cidx (argvAt A.argv (getopt_normalize s).optind)
      (clampNC (getopt_normalize s).nc
        (strlenC (argvAt A.argv (getopt_normalize s).optind))) = c)
    (hci : getopt_char_to_mask_index (cInt c) = some ci)
    (hom : (getopt_parse_optstring A.optstring).omask.testBit ci = true)
    (ham : (getopt_parse_optstring A.optstring).amask.testBit ci = true)
    (hnx : cidx (argvAt A.argv (getopt_normalize s).optind)
      (clampNC (getopt_normalize s).nc
        (strlenC (argvAt A.argv (getopt_normalize s).optind)) + 1) = nul) :
    (zephyr_getopt A s).1.ret =
      (if (getopt_parse_optstring A.optstring).colon then 58 else 63) ∧
    (zephyr_getopt A s).1.kind = RKind.missingArg ∧
    (zephyr_getopt A s).2.optopt = cInt c ∧
    (zephyr_getopt A s).2.optind = (getopt_normalize s).optind := by
  have hcn : ¬ (A.argv.length : Int) ≤ (getopt_normalize s).optind := not_le.mpr hc
  have hfst : (zephyr_getopt A s).1 =
      getopt_classify A (getopt_parse_optstring A.optstring) (getopt_normalize s) := by
    show (getopt_core_tbl A (getopt_parse_optstring A.optstring) (getopt_normalize s)).1 = _
    exact getopt_core_tbl_fst A _ _ hcn
  have hsnd : (zephyr_getopt A s).2 =
      getopt_apply (getopt_classify A (getopt_parse_optstring A.optstring)
        (getopt_normalize s)) (getopt_normalize s) := by
    show (getopt_core_tbl A (getopt_parse_optstring A.optstring) (getopt_normalize s)).2 = _
    rw [getopt_core_tbl_snd A _ _ hcn, getopt_core_tbl_fst A _ _ hcn]
  have hsep : ¬ ((getopt_normalize s).optind + 1 < (A.argv.length : Int)) := by omega
  have hcls : getopt_classify A (getopt_parse_optstring A.optstring) (getopt_normalize s) =
      ⟨if (getopt_parse_optstring A.optstring).colon then 58 else 63, RKind.missingArg,
       none, some (cInt c), some (getopt_normalize s).optind,
       some (clampNC (getopt_normalize s).nc
         (strlenC (argvAt A.argv (getopt_normalize s).optind))), none, none⟩ := by
    unfold getopt_classify getopt_short_scan
    dsimp only
    simp only [hl, hcj, hci, hnx, hom, ham]
    simp +decide [h0, h1, hdd, hsep]
  refine ⟨?_, ?_, ?_, ?_⟩
  · rw [hfst, hcls]
  · rw [hfst, hcls]
  · rw [hsnd, hcls, getopt_apply_optopt]
    simp
  · rw [hsnd, hcls, getopt_apply_optind]
    simp

/-- C6 witness: the spec's scenario `argv = ["cmd", "-f"]`, optstring
`":f:"` yields `':'` with `last_char` `'f'`. -/
theorem C6_short_missing_arg_policy_witness :
    (zephyr_getopt C6args freshGState).1.ret =
      (if (getopt_parse_optstring C6args.optstring).colon then 58 else 63) ∧
    (zephyr_getopt C6args freshGState).1.kind = RKind.missingArg ∧
    (zephyr_getopt C6args freshGState).2.optopt = cInt 'f' ∧
    (zephyr_getopt C6args freshGState).2.optind = (getopt_normalize freshGState).optind :=
  C6_short_missing_arg_policy C6args freshGState 'f' 5 (by decide) (by decide) (by decide)
    (by decide) (by decide) (by decide) (by decide) (by decide) (by decide) (by decide)
    (by decide)

/-! ### C7 -/

/-- C7: for `argv = ["cmd", "-abc"]` and any optstring registering `a`, `b`,
`c` (mask bits 0, 1, 2) as no-argument options, three successive calls from a
fresh state return `Matched` for `'a'` (97), `'b'` (98), `'c'` (99) in that
order; `next_index` stays 1 after the first two calls and advances to 2 only
on the third. -/
theorem C7_clustered_three_calls (o : List Char) (om am : Nat) (col : Bool)
    (hp : getopt_parse_optstring o = ⟨om, am, col⟩)
    (ho0 : om.testBit 0 = true) (ho1 : om.testBit 1 = true) (ho2 : om.testBit 2 = true)
    (ha0 : am.testBit 0 = false) (ha1 : am.testBit 1 = false) (ha2 : am.testBit 2 = false) :
    (zephyr_getopt (C7args o) freshGState).1.ret = 97 ∧
    (zephyr_getopt (C7args o) freshGState).1.kind = RKind.matched ∧
    (zephyr_getopt (C7args o) freshGState).2.optind = 1 ∧
    (zephyr_getopt (C7args o) (zephyr_getopt (C7args o) freshGState).2).1.ret = 98 ∧
    (zephyr_getopt (C7args o) (zephyr_getopt (C7args o) freshGState).2).1.kind =
      RKind.matched ∧
    (zephyr_getopt (C7args o) (zephyr_getopt (C7args o) freshGState).2).2.optind = 1 ∧
    (zephyr_getopt (C7args o) (zephyr_getopt (C7args o)
      (zephyr_getopt (C7args o) freshGState).2).2).1.ret = 99 ∧
    (zephyr_getopt (C7args o) (zephyr_getopt (C7args o)
      (zephyr_getopt (C7args o) freshGState).2).2).1.kind = RKind.matched ∧
    (zephyr_getopt (C7args o) (zephyr_getopt (C7args o)
      (zephyr_getopt (C7args o) freshGState).2).2).2.optind = 2 := by
  have hps : getopt_parse_optstring (C7args o).optstring = ⟨om, am, col⟩ := hp
  have e1 : zephyr_getopt (C7args o) freshGState =
      (⟨97, RKind.matched, some none, some 97, some 1, some 2, none, none⟩,
       ⟨1, 1, 2, 97, none⟩) := by
    show getopt_core_tbl (C7args o) (getopt_parse_optstring (C7args o).optstring)
      (getopt_normalize freshGState) = _
    rw [hps, (by decide : getopt_normalize freshGState = ⟨1, 1, 1, 0, none⟩)]
    unfold getopt_core_tbl getopt_classify getopt_short_scan getopt_apply
    simp +decide [C7args, argCmd, argvAt, cidx, strlenC, getopt_char_to_mask_index,
      cInt, u16, clampNC, ho0, ha0]
  have e2 : zephyr_getopt (C7args o) ⟨1, 1, 2, 97, none⟩ =
      (⟨98, RKind.matched, some none, some 98, some 1, some 3, none, none⟩,
       ⟨1, 1, 3, 98, none⟩) := by
    show getopt_core_tbl (C7args o) (getopt_parse_optstring (C7args o).optstring)
      (getopt_normalize ⟨1, 1, 2, 97, none⟩) = _
    rw [hps, (by decide : getopt_normalize ⟨1, 1, 2, 97, none⟩ = ⟨1, 1, 2, 97, none⟩)]
    unfold getopt_core_tbl getopt_classify getopt_short_scan getopt_apply
    simp +decide [C7args, argCmd, argvAt, cidx, strlenC, getopt_char_to_mask_index,
      cInt, u16, clampNC, ho1, ha1]
  have e3 : zephyr_getopt (C7args o) ⟨1, 1, 3, 98, none⟩ =
      (⟨99, RKind.matched, some none, some 99, some 2, some 0, none, none⟩,
       ⟨2, 2, 0, 99, none⟩) := by
    show getopt_core_tbl (C7args o) (getopt_parse_optstring (C7args o).optstring)
      (getopt_normalize ⟨1, 1, 3, 98, none⟩) = _
    rw [hps, (by decide : getopt_normalize ⟨1, 1, 3, 98, none⟩ = ⟨1, 1, 3, 98, none⟩)]
    unfold getopt_core_tbl getopt_classify getopt_short_scan getopt_apply
    simp +decide [C7args, argCmd, argvAt, cidx, strlenC, getopt_char_to_mask_index,
      cInt, u16, clampNC, ho2, ha2]
  rw [e1]
  dsimp only
  rw [e2]
  dsimp only
  rw [e3]
  exact ⟨rfl, rfl, rfl, rfl, rfl, rfl, rfl, rfl, rfl⟩

/-- C7 witness: the optstring `"abc"` registers all three cluster characters
as no-argument options. -/
theorem C7_clustered_three_calls_witness :
    (zephyr_getopt (C7args ['a', 'b', 'c']) freshGState).1.ret = 97 ∧
    (zephyr_getopt (C7args ['a', 'b', 'c']) freshGState).1.kind = RKind.matched ∧
    (zephyr_getopt (C7args ['a', 'b', 'c']) freshGState).2.optind = 1 ∧
    (zephyr_getopt (C7args ['a', 'b', 'c']) (zephyr_getopt (C7args ['a', 'b', 'c'])
      freshGState).2).1.ret = 98 ∧
    (zephyr_getopt (C7args ['a', 'b', 'c']) (zephyr_getopt (C7args ['a', 'b', 'c'])
      freshGState).2).1.kind = RKind.matched ∧
    (zephyr_getopt (C7args ['a', 'b', 'c']) (zephyr_getopt (C7args ['a', 'b', 'c'])
      freshGState).2).2.optind = 1 ∧
    (zephyr_getopt (C7args ['a', 'b', 'c']) (zephyr_getopt (C7args ['a', 'b', 'c'])
      (zephyr_getopt (C7args ['a', 'b', 'c']) freshGState).2).2).1.ret = 99 ∧
    (zephyr_getopt (C7args ['a', 'b', 'c']) (zephyr_getopt (C7args ['a', 'b', 'c'])
      (zephyr_getopt (C7args ['a', 'b', 'c']) freshGState).2).2).1.kind = RKind.matched ∧
    (zephyr_getopt (C7args ['a', 'b', 'c']) (zephyr_getopt (C7args ['a', 'b', 'c'])
      (zephyr_getopt (C7args ['a', 'b', 'c']) freshGState).2).2).2.optind = 2 :=
  C7_clustered_three_calls ['a', 'b', 'c'] 7 0 false (by decide) (by decide) (by decide)
    (by decide) (by decide) (by decide) (by decide)
